import Mathlib

/-!
Verification development for the MCP gateway of the smartthings-mcp
repository.  The definitions below are shallow embeddings of the gateway
core (src/src/smartthingsApi.ts, src/src/upstreams.ts, and the streamable
endpoint handler): strings stay strings, machine-level byte values are
`Nat` below 256, fallible calls return `Except`/`Option`, and the state
mutated by the TypeScript methods is passed explicitly.  Outbound effects
(connecting to an upstream, listing its tools, the filesystem read of the
upstream config) are supplied as explicit environment records describing
the outcome each call observes, so every operation is a total, executable
function of its inputs.
-/

namespace SmartthingsMcp

/-! ## Resource URI codec (src/src/smartthingsApi.ts, encodeResourceUri /
decodeResourceUri)

A native resource URI is represented by its UTF-8 byte sequence
(`Buffer.from(uri, "utf8")` in the source): a list of `Nat` below 256.
`Buffer.toString("base64url")` is the unpadded base64url encoding. -/

/-- One base64url alphabet character for a sextet value (`A-Z`, `a-z`,
`0-9`, `-`, `_`). -/
def b64Char (n : Nat) : Char :=
  if n < 26 then Char.ofNat (65 + n)
  else if n < 52 then Char.ofNat (97 + (n - 26))
  else if n < 62 then Char.ofNat (48 + (n - 52))
  else if n = 62 then '-'
  else '_'

/-- Sextet value of a base64url alphabet character (characters outside the
alphabet map to 0; they never occur in codec output). -/
def b64Value (c : Char) : Nat :=
  let k := c.toNat
  if 65 ≤ k ∧ k ≤ 90 then k - 65
  else if 97 ≤ k ∧ k ≤ 122 then k - 97 + 26
  else if 48 ≤ k ∧ k ≤ 57 then k - 48 + 52
  else if c = '-' then 62
  else if c = '_' then 63
  else 0

/-- Sextet values of the unpadded base64url encoding of a byte list:
3-byte groups become 4 sextets, a trailing 1-byte group 2 sextets and a
trailing 2-byte group 3 sextets. -/
def base64urlEncodeVals : List Nat → List Nat
  | [] => []
  | [b1] => [b1 / 4, b1 % 4 * 16]
  | [b1, b2] => [b1 / 4, b1 % 4 * 16 + b2 / 16, b2 % 16 * 4]
  | b1 :: b2 :: b3 :: rest =>
      b1 / 4 :: (b1 % 4 * 16 + b2 / 16) :: (b2 % 16 * 4 + b3 / 64) :: b3 % 64 ::
        base64urlEncodeVals rest

/-- Unpadded base64url encoding of a byte list, as characters
(`Buffer.toString("base64url")`). -/
def base64urlEncode (bytes : List Nat) : List Char :=
  (base64urlEncodeVals bytes).map b64Char

/-- Byte list recovered from a list of sextet values: 4-sextet groups give
3 bytes, a trailing 3-sextet group 2 bytes, a trailing 2-sextet group one
byte, and a trailing single sextet no byte (`Buffer.from(_, "base64url")`). -/
def base64urlDecodeVals : List Nat → List Nat
  | c1 :: c2 :: c3 :: c4 :: rest =>
      (c1 * 4 + c2 / 16) :: (c2 % 16 * 16 + c3 / 4) :: (c3 % 4 * 64 + c4) ::
        base64urlDecodeVals rest
  | [c1, c2] => [c1 * 4 + c2 / 16]
  | [c1, c2, c3] => [c1 * 4 + c2 / 16, c2 % 16 * 16 + c3 / 4]
  | _ => []

/-- base64url decoding of a character list (`Buffer.from(s, "base64url")`). -/
def base64urlDecode (chars : List Char) : List Nat :=
  base64urlDecodeVals (chars.map b64Value)

/-! ## Platform model: the WHATWG URL parser

`decodeResourceUri` and the reload validation call `new URL(...)`.  The
model below covers the hierarchical `scheme://host[:port]/path` shape:
the only shape the gateway produces (`mcp+proxy://...`) or configures
(`http(s)://...`).  Faithful behaviours kept: an opaque (non-special
scheme) host preserves case, the scheme is lowercased, forbidden host
code points or a non-numeric port make the parse throw, and the path and
query/fragment are split at the first `?` or `#`.  Non-hierarchical URLs
(no `//` after the scheme) are modelled as a parse failure. -/

/-- A parsed URL as observed through `protocol` / `hostname` / `pathname`. -/
structure ParsedUrl where
  protocol : String
  hostname : String
  pathname : String
deriving DecidableEq, Repr

/-- Scheme characters after the first (ASCII alphanumeric, `+`, `-`, `.`). -/
def isSchemeChar (c : Char) : Bool :=
  c.isAlphanum || c = '+' || c = '-' || c = '.'

/-- Forbidden host code points of the URL standard. -/
def forbiddenHostChar (c : Char) : Bool :=
  c = Char.ofNat 0 || c = Char.ofNat 9 || c = Char.ofNat 10 || c = Char.ofNat 13 ||
  c = ' ' || c = '#' || c = '/' || c = ':' || c = '<' || c = '>' || c = '?' ||
  c = '@' || c = '[' || c = Char.ofNat 92 || c = ']' || c = '^' || c = '|'

/-- Characters that end the authority segment. -/
def isAuthorityEnd (c : Char) : Bool :=
  c = '/' || c = '?' || c = '#'

/-- Characters that end the path segment. -/
def isPathEnd (c : Char) : Bool :=
  c = '?' || c = '#'

/-- Model of `new URL(s)`, returning `none` where the constructor throws. -/
def parseUrl (s : String) : Option ParsedUrl :=
  let cs := s.toList
  let schemeChars := cs.takeWhile (fun c => c != ':')
  match schemeChars with
  | [] => none
  | c0 :: restScheme =>
    if c0.isAlpha && restScheme.all isSchemeChar then
      match cs.dropWhile (fun c => c != ':') with
      | ':' :: '/' :: '/' :: afterSlashes =>
        let authority := afterSlashes.takeWhile (fun c => ! isAuthorityEnd c)
        let afterAuth := afterSlashes.dropWhile (fun c => ! isAuthorityEnd c)
        let host := authority.takeWhile (fun c => c != ':')
        let portPart := authority.dropWhile (fun c => c != ':')
        if authority.any (fun c => c == '@') then none
        else if host.any forbiddenHostChar then none
        else if ! (portPart.drop 1).all Char.isDigit then none
        else
          some { protocol := ⟨schemeChars.map Char.toLower⟩ ++ ":"
                 hostname := ⟨host⟩
                 pathname := ⟨afterAuth.takeWhile (fun c => ! isPathEnd c)⟩ }
      | _ => none
    else none

/-- The fixed scheme of gateway resource URIs (`const resourceScheme`). -/
def resourceScheme : String := "mcp+proxy:"

/-- `encodeResourceUri` (src/src/smartthingsApi.ts line 849): the native
URI's UTF-8 bytes, base64url-encoded, under the fixed scheme with the
upstream name as authority. -/
def encodeResourceUri (upstream : String) (uriBytes : List Nat) : String :=
  resourceScheme ++ "//" ++ upstream ++ "/" ++ ⟨base64urlEncode uriBytes⟩

/-- `pathname.replace(/^\//, "")`: strip one leading slash. -/
def stripLeadingSlash (s : String) : String :=
  match s.toList with
  | '/' :: rest => ⟨rest⟩
  | _ => s

/-- `decodeResourceUri` (src/src/smartthingsApi.ts line 854): parse the
URL, require the fixed scheme and a nonempty authority and path, and
base64url-decode the path. -/
def decodeResourceUri (uri : String) : Option (String × List Nat) :=
  match parseUrl uri with
  | none => none
  | some parsed =>
    if parsed.protocol ≠ resourceScheme then none
    else
      let upstream := parsed.hostname
      let encoded := stripLeadingSlash parsed.pathname
      if upstream = "" ∨ encoded = "" then none
      else some (upstream, base64urlDecode encoded.toList)

/-- Upstream names accepted by the registry's schema
(src/src/upstreams.ts `nameRegex`): 1-32 characters of `A-Z`, `a-z`,
`0-9`, `_` or `-`. -/
def isNameChar (c : Char) : Bool :=
  c.isAlphanum || c = '_' || c = '-'

/-- The registry's upstream-name rule: `/^[A-Za-z0-9_-]{1,32}$/`. -/
def validUpstreamName (s : String) : Bool :=
  decide (1 ≤ s.length) && decide (s.length ≤ 32) && s.toList.all isNameChar

/-! ## Gateway data model (src/src/smartthingsApi.ts)

Upstream tool/prompt/resource descriptors are loosely structured
documents; the gateway reads only `name`, `description`, `_meta` and
`uri` and passes everything else through verbatim, so the remainder is
modelled as an opaque `rest : Nat` payload and `_meta` as an opaque
`Option Nat`.  Client and transport handles are opaque `Nat` ids. -/

/-- `const gatewayPrefix = "gateway"`. -/
def gatewayPrefix : String := "gateway"

inductive UpstreamStatus where
  | connected
  | error
  | disabled
deriving DecidableEq, Repr

/-- `UpstreamConfig` (src/src/upstreams.ts schema): name, url, optional
description, enabled flag (schema default true), optional static headers. -/
structure UpstreamConfig where
  name : String
  url : String
  description : Option String
  enabled : Bool
  headers : Option (List (String × String))
deriving DecidableEq, Repr

structure Tool where
  name : String
  description : Option String
  meta : Option Nat
  rest : Nat
deriving DecidableEq, Repr

structure Prompt where
  name : String
  description : Option String
  meta : Option Nat
  rest : Nat
deriving DecidableEq, Repr

/-- An upstream resource descriptor; `uri` is the native URI's UTF-8
bytes, as in the codec model. -/
structure ResourceDesc where
  name : Option String
  uri : List Nat
  meta : Option Nat
  rest : Nat
deriving DecidableEq, Repr

/-- `UpstreamState` (src/src/smartthingsApi.ts line 804). -/
structure UpstreamState where
  config : UpstreamConfig
  client : Option Nat
  transport : Option Nat
  tools : List Tool
  prompts : List Prompt
  resources : List ResourceDesc
  resourceTemplates : List Nat
  status : UpstreamStatus
  lastError : Option String
  lastSync : Option String
  configHash : String
deriving DecidableEq, Repr

/-- Models `JSON.stringify(configValue)` (`hashConfig`, line 895): a
canonical rendering of the config record.  Only its equality behaviour
is relied on by the gateway. -/
def hashConfig (c : UpstreamConfig) : String :=
  c.name ++ ";" ++ c.url ++ ";" ++ c.description.getD "" ++ ";" ++
    (if c.enabled then "true" else "false") ++ ";" ++
    String.intercalate ";" ((c.headers.getD []).map fun h => h.1 ++ ":" ++ h.2)

/-- The gateway's upstream map: a JavaScript `Map`, i.e. an
insertion-ordered association list with unique keys, plus the
`refreshing` reload guard. -/
structure Gateway where
  upstreams : List (String × UpstreamState)
  refreshing : Bool
deriving DecidableEq, Repr

/-- `this.upstreams.get(name)`. -/
def lookupUp (ups : List (String × UpstreamState)) (name : String) :
    Option UpstreamState :=
  (ups.find? fun p => p.1 = name).map Prod.snd

/-- In-place mutation of the state object stored under `name` (the
TypeScript methods mutate the entry aliased in the `Map`). -/
def updateEntry (ups : List (String × UpstreamState)) (name : String)
    (s : UpstreamState) : List (String × UpstreamState) :=
  ups.map fun p => if p.1 = name then (p.1, s) else p

/-! ## Single-upstream synchronization (`syncUpstream`, lines 1260-1307)

The outbound calls made during one synchronization attempt — connect,
`listTools`, `getServerCapabilities`, `listPrompts`, `listResources` —
are described by a `SyncEnv` record giving the outcome each call would
observe.  The TypeScript body is one `try`-block whose `catch` sees the
state as mutated so far, so each stage below threads the partially
updated state. -/

structure SyncEnv where
  /-- Outcome of `client.connect(transport)`: a fresh client handle, or
  the thrown failure message. -/
  connectResult : Except String Nat
  /-- Handle of the freshly built `StreamableHTTPClientTransport`. -/
  newTransport : Nat
  /-- Outcome of `client.listTools()`. -/
  listToolsResult : Except String (List Tool)
  /-- Whether `getServerCapabilities()` advertises prompt support. -/
  capsPrompts : Bool
  /-- Whether `getServerCapabilities()` advertises resource support. -/
  capsResources : Bool
  /-- Outcome of `client.listPrompts()` (consulted only when advertised). -/
  listPromptsResult : Except String (List Prompt)
  /-- Outcome of `client.listResources()` (consulted only when advertised). -/
  listResourcesResult : Except String (List ResourceDesc)
  /-- `new Date().toISOString()` stamped on success. -/
  now : String

/-- The `catch` branch: `status = "error"`, `lastError` recorded;
everything else is left as already mutated. -/
def syncFail (s : UpstreamState) (msg : String) : UpstreamState :=
  { s with status := .error, lastError := some msg }

/-- The success tail: `status = "connected"`, `lastError` cleared,
`lastSync` stamped. -/
def syncSuccess (env : SyncEnv) (s : UpstreamState) : UpstreamState :=
  { s with status := .connected, lastError := none, lastSync := some env.now }

/-- Resource-listing stage: `listResources` only if advertised, else the
cache is reset to `[]`. -/
def syncListResources (env : SyncEnv) (s : UpstreamState) : UpstreamState :=
  if env.capsResources then
    match env.listResourcesResult with
    | .error e => syncFail s e
    | .ok rs => syncSuccess env { s with resources := rs }
  else syncSuccess env { s with resources := [] }

/-- Prompt-listing stage: `listPrompts` only if advertised, else the
cache is reset to `[]`. -/
def syncListPrompts (env : SyncEnv) (s : UpstreamState) : UpstreamState :=
  if env.capsPrompts then
    match env.listPromptsResult with
    | .error e => syncFail s e
    | .ok ps => syncListResources env { s with prompts := ps }
  else syncListResources env { s with prompts := [] }

/-- Tool-listing stage: `state.tools` is assigned as soon as `listTools`
succeeds, before prompts/resources are listed. -/
def syncListTools (env : SyncEnv) (s : UpstreamState) : UpstreamState :=
  match env.listToolsResult with
  | .error e => syncFail s e
  | .ok ts => syncListPrompts env { s with tools := ts }

/-- `syncUpstream(state)`: disabled short-circuit, lazily established
client, then the listing stages. -/
def syncUpstream (env : SyncEnv) (s : UpstreamState) : UpstreamState :=
  if s.config.enabled = false then
    { s with status := .disabled }
  else
    match s.client with
    | some _ => syncListTools env s
    | none =>
      match env.connectResult with
      | .error e => syncFail s e
      | .ok c =>
          syncListTools env { s with client := some c, transport := some env.newTransport }

/-! ## Upstream registry loading (src/src/upstreams.ts, loadUpstreamsConfig)

The filesystem read, `JSON.parse` and the zod schema check are platform
and library calls; they are modelled by the `ConfigSource` the load
observes: a missing file, a document rejected by parsing or schema
validation (with the thrown message), or a schema-valid document.  The
duplicate-name check and environment-variable expansion are transcribed
from the source. -/

inductive ConfigSource where
  | missing
  | invalid (msg : String)
  | doc (upstreams : List UpstreamConfig)

/-- `{` as a character (the env-var reference syntax). -/
def lbrace : Char := Char.ofNat 123

/-- `}` as a character. -/
def rbrace : Char := Char.ofNat 125

/-- Characters of an environment-variable name (`[A-Z0-9_]`). -/
def isEnvNameChar (c : Char) : Bool :=
  ('A' ≤ c && c ≤ 'Z') || c.isDigit || c = '_'

def envLookup (env : List (String × String)) (name : String) : Option String :=
  (env.find? fun p => p.1 = name).map Prod.snd

/-- Scanner state while replaying the left-to-right, non-overlapping
matching of `/\$\{([A-Z0-9_]+)\}/g`. -/
inductive EnvScanMode where
  | normal
  | afterDollar
  | inRef (name : List Char)

/-- One left-to-right pass of
`value.replace(/\$\{([A-Z0-9_]+)\}/g, ...)`, throwing when a referenced
variable is unset or empty (`!envValue`). -/
def expandLoop (env : List (String × String)) :
    List Char → EnvScanMode → Except String (List Char)
  | [], .normal => .ok []
  | [], .afterDollar => .ok ['$']
  | [], .inRef name => .ok ('$' :: lbrace :: name)
  | c :: cs, .normal =>
      if c = '$' then expandLoop env cs .afterDollar
      else (fun t => c :: t) <$> expandLoop env cs .normal
  | c :: cs, .afterDollar =>
      if c = lbrace then expandLoop env cs (.inRef [])
      else if c = '$' then (fun t => '$' :: t) <$> expandLoop env cs .afterDollar
      else (fun t => '$' :: c :: t) <$> expandLoop env cs .normal
  | c :: cs, .inRef name =>
      if isEnvNameChar c then expandLoop env cs (.inRef (name ++ [c]))
      else if c = rbrace ∧ name ≠ [] then
        match envLookup env ⟨name⟩ with
        | some v =>
            if v = "" then
              .error ("Missing env var " ++ (⟨name⟩ : String) ++
                " referenced in upstream config")
            else (fun t => v.toList ++ t) <$> expandLoop env cs .normal
        | none =>
            .error ("Missing env var " ++ (⟨name⟩ : String) ++
              " referenced in upstream config")
      else if c = '$' then
        (fun t => ('$' :: lbrace :: name) ++ t) <$> expandLoop env cs .afterDollar
      else (fun t => ('$' :: lbrace :: name) ++ (c :: t)) <$> expandLoop env cs .normal

def expandEnvVars (env : List (String × String)) (s : String) : Except String String :=
  (fun cs => (⟨cs⟩ : String)) <$> expandLoop env s.toList .normal

def expandHeaders (env : List (String × String))
    (headers : Option (List (String × String))) :
    Except String (Option (List (String × String))) :=
  match headers with
  | none => .ok none
  | some hs => some <$> hs.mapM fun p => (fun v => (p.1, v)) <$> expandEnvVars env p.2

/-- The per-entry pass of `loadUpstreamsConfig`: duplicate-name check
against the names seen so far, then env expansion of `url` and header
values. -/
def loadEntries (env : List (String × String)) :
    List UpstreamConfig → List String → Except String (List UpstreamConfig)
  | [], _ => .ok []
  | u :: rest, seen =>
    if u.name ∈ seen then .error ("Duplicate upstream name: " ++ u.name)
    else do
      let url ← expandEnvVars env u.url
      let headers ← expandHeaders env u.headers
      let tail ← loadEntries env rest (u.name :: seen)
      pure ({ u with url := url, headers := headers } :: tail)

/-- `loadUpstreamsConfig(configPath)`: a missing file yields zero
upstreams without error; parse/schema failures propagate; otherwise the
entries are checked and expanded. -/
def loadUpstreamsConfig (env : List (String × String)) (src : ConfigSource) :
    Except String (List UpstreamConfig) :=
  match src with
  | .missing => .ok []
  | .invalid e => .error e
  | .doc ups => loadEntries env ups []

/-! ## Reload (src/src/smartthingsApi.ts, reloadUpstreams, lines 1175-1258) -/

/-- The gateway's own endpoint coordinates (`config.publicUrl`,
`config.gatewayPath`, `config.port`). -/
structure GatewayCtx where
  publicUrl : String
  gatewayPath : String
  port : Nat

/-- `value.replace(/\/$/, "")`: remove one trailing slash. -/
def stripTrailingSlash (s : String) : String :=
  match s.toList.reverse with
  | '/' :: rest => ⟨rest.reverse⟩
  | _ => s

/-- The gateway's locally and publicly reachable endpoint URLs,
trailing-slash normalized (lines 1185-1189). -/
def gatewayUrls (ctx : GatewayCtx) : List String :=
  [ctx.publicUrl ++ ctx.gatewayPath,
   "http://localhost:" ++ toString ctx.port ++ ctx.gatewayPath,
   "http://127.0.0.1:" ++ toString ctx.port ++ ctx.gatewayPath].map stripTrailingSlash

/-- Validation of one incoming config (lines 1190-1207): reserved name,
self-referential URL, unparsable URL.  (The non-HTTPS warning is
log-only and has no semantic effect.) -/
def validateOne (ctx : GatewayCtx) (u : UpstreamConfig) : Option String :=
  if u.name = gatewayPrefix then
    some ("Upstream name \"" ++ u.name ++ "\" is reserved")
  else if stripTrailingSlash u.url ∈ gatewayUrls ctx then
    some ("Upstream \"" ++ u.name ++ "\" points to the gateway endpoint")
  else
    match parseUrl u.url with
    | none => some ("Invalid upstream URL for \"" ++ u.name ++ "\"")
    | some _ => none

/-- The validation loop: first failure throws. -/
def validateUpstreams (ctx : GatewayCtx) : List UpstreamConfig → Option String
  | [] => none
  | u :: rest =>
    match validateOne ctx u with
    | some e => some e
    | none => validateUpstreams ctx rest

/-- A new entry is created in `disabled` status with empty listings
(lines 1223-1232). -/
def freshUpstreamState (cfg : UpstreamConfig) : UpstreamState :=
  { config := cfg, client := none, transport := none, tools := [], prompts := [],
    resources := [], resourceTemplates := [], status := .disabled, lastError := none,
    lastSync := none, configHash := hashConfig cfg }

/-- The per-config upsert (lines 1220-1242): create missing entries;
on a hash change or `force`, close and clear the client and replace the
stored config/hash, leaving listings and status as they were.  The
second accumulator component collects the client handles closed
(best-effort: close failures are swallowed by `.catch(() => undefined)`
and cannot affect the result). -/
def upsertOne (force : Bool) (acc : List (String × UpstreamState) × List Nat)
    (cfg : UpstreamConfig) : List (String × UpstreamState) × List Nat :=
  match lookupUp acc.1 cfg.name with
  | none => (acc.1 ++ [(cfg.name, freshUpstreamState cfg)], acc.2)
  | some s =>
    if s.configHash ≠ hashConfig cfg ∨ force = true then
      (updateEntry acc.1 cfg.name
        { s with
            client := none
            transport := none
            config := cfg
            configHash := hashConfig cfg },
       acc.2 ++ s.client.toList)
    else acc

def upsertAll (force : Bool) (ups : List (String × UpstreamState))
    (cfgs : List UpstreamConfig) : List (String × UpstreamState) × List Nat :=
  cfgs.foldl (upsertOne force) (ups, [])

inductive ReloadOutcome where
  | busy
  | failed (msg : String)
  | ok (upstreamCount : Nat)
deriving DecidableEq, Repr

/-- Environment of one reload: the env-var map and config source the
registry load observes, and the per-upstream synchronization
environments used when the reload also synchronizes. -/
structure ReloadEnv where
  envVars : List (String × String)
  source : ConfigSource
  syncEnvs : String → SyncEnv

/-- `reloadUpstreams(force, syncUpstreams)`: serialized by the
`refreshing` guard; load and validate (all throws happen before any
mutation of the map); drop entries absent from the new list, closing
their clients; upsert incoming configs; optionally synchronize every
entry.  Returns the new gateway, the outcome, and the client handles
closed.  (The list-changed notifications, lines 1248-1252, do not touch
the map and are not modelled.) -/
def reloadUpstreams (ctx : GatewayCtx) (renv : ReloadEnv) (g : Gateway)
    (force syncUps : Bool) : Gateway × ReloadOutcome × List Nat :=
  if g.refreshing then (g, .busy, [])
  else
    match loadUpstreamsConfig renv.envVars renv.source with
    | .error e => (g, .failed e, [])
    | .ok incoming =>
      match validateUpstreams ctx incoming with
      | some err => (g, .failed err, [])
      | none =>
        let incomingNames := incoming.map (·.name)
        let removedClients := g.upstreams.filterMap fun p =>
          if p.1 ∈ incomingNames then none else p.2.client
        let kept := g.upstreams.filter fun p => decide (p.1 ∈ incomingNames)
        let upserted := upsertAll force kept incoming
        let synced := if syncUps then
            upserted.1.map fun p => (p.1, syncUpstream (renv.syncEnvs p.1) p.2)
          else upserted.1
        ({ upstreams := synced, refreshing := false }, .ok synced.length,
          removedClients ++ upserted.2)

/-! ## Listing and dispatch (src/src/smartthingsApi.ts, lines 1000-1173) -/

/-- `getStatus()` (lines 953-967): the per-upstream status snapshot. -/
structure UpstreamPublicStatus where
  status : UpstreamStatus
  lastSync : Option String
  lastError : Option String
  url : String
deriving DecidableEq, Repr

def getStatus (g : Gateway) : List (String × UpstreamPublicStatus) :=
  g.upstreams.map fun p =>
    (p.1, { status := p.2.status, lastSync := p.2.lastSync,
            lastError := p.2.lastError, url := p.2.config.url })

/-- A tool descriptor as returned by the gateway's `listTools`: the
original opaque payload with the rewritten name, annotated description
and the `_meta.upstream = {name, url}` augmentation.  (The gateway-native
descriptors carry their fixed title/inputSchema inside `rest`.) -/
structure ListedTool where
  name : String
  description : Option String
  metaBase : Option Nat
  metaUpstream : Option (String × String)
  rest : Nat
deriving DecidableEq, Repr

/-- `gatewayTools()` (lines 1072-1087): the two gateway-native tool
descriptors. -/
def gatewayTools : List ListedTool :=
  [{ name := gatewayPrefix ++ ".list_upstreams"
     description := some "List configured upstreams and their current status."
     metaBase := none, metaUpstream := none, rest := 0 },
   { name := gatewayPrefix ++ ".reload_upstreams"
     description := some "Reload upstream config and refresh cached tool lists."
     metaBase := none, metaUpstream := none, rest := 1 }]

/-- The renaming applied to one cached upstream tool (lines 1005-1019). -/
def renameTool (upName upUrl : String) (t : Tool) : ListedTool :=
  { name := upName ++ "." ++ t.name
    description := some (match t.description with
      | some d => d ++ " (upstream: " ++ upName ++ ")"
      | none => "Upstream tool from " ++ upName)
    metaBase := t.meta
    metaUpstream := some (upName, upUrl)
    rest := t.rest }

/-- The upstream loop of `listTools` (lines 1002-1021): entries with an
empty tool cache or a non-`connected` status are skipped. -/
def upstreamToolEntries : List (String × UpstreamState) → List ListedTool
  | [] => []
  | (n, s) :: rest =>
      (if s.tools.length = 0 ∨ s.status ≠ .connected then []
       else s.tools.map (renameTool n s.config.url)) ++ upstreamToolEntries rest

/-- `listTools()` (lines 1000-1023). -/
def listTools (g : Gateway) : List ListedTool :=
  gatewayTools ++ upstreamToolEntries g.upstreams

/-- The tool listing as the spec phrases it (refinement target for the
listing claim, following the spec's words): for exactly those upstreams
whose status is `connected`, each cached tool renamed; others contribute
nothing. -/
def connectedUpstreamToolsSpec : List (String × UpstreamState) → List ListedTool
  | [] => []
  | (n, s) :: rest =>
      (if s.status = .connected then s.tools.map (renameTool n s.config.url) else []) ++
        connectedUpstreamToolsSpec rest

/-- `splitNamespaced(name)` (lines 897-904): split at the first `.`. -/
def splitNamespaced (name : String) : Option (String × String) :=
  let cs := name.toList
  let before := cs.takeWhile fun c => c != '.'
  if before.length = cs.length then none
  else some (⟨before⟩, ⟨cs.drop (before.length + 1)⟩)

inductive ErrCode where
  | invalidParams
  | internalError
deriving DecidableEq, Repr

/-- Arguments of a tool call: the `force` property as read by the
gateway-native reload tool (`!!args?.force`), plus the opaque remainder
forwarded verbatim. -/
structure ToolArgs where
  force : Option Bool
  payload : Nat
deriving DecidableEq, Repr

/-- Result of one `callTool` dispatch: the `toText` dump of the status or
reload outcome for the two gateway-native tools, a forwarded upstream
response returned unmodified, or a thrown `McpError`. -/
inductive CallResult where
  | statusDump (st : List (String × UpstreamPublicStatus))
  | reloadDump (r : ReloadOutcome)
  | forwarded (payload : Nat)
  | mcpError (code : ErrCode) (msg : String)
deriving DecidableEq, Repr

/-- Observable gateway-side actions of a dispatch (used to state that
exactly one self-heal synchronization is attempted). -/
inductive GEvent where
  | syncAttempt (upstream : String)
deriving DecidableEq, Repr

/-- Environment of one dispatch: the self-heal synchronization outcomes,
the upstream's `client.callTool` response as a function of the forwarded
client handle, local tool name, arguments and task, and the reload
environment used by the gateway-native reload tool. -/
structure CallEnv where
  sync : SyncEnv
  forward : Nat → String → Option ToolArgs → Option Nat → Nat
  reload : ReloadEnv

/-- `callTool(name, args, task)` (lines 1089-1125). -/
def callTool (ctx : GatewayCtx) (env : CallEnv) (g : Gateway) (name : String)
    (args : Option ToolArgs) (task : Option Nat) : Gateway × List GEvent × CallResult :=
  if name = gatewayPrefix ++ ".list_upstreams" then
    (g, [], .statusDump (getStatus g))
  else if name = gatewayPrefix ++ ".reload_upstreams" then
    let force := match args with
      | some a => a.force.getD false
      | none => false
    let r := reloadUpstreams ctx env.reload g force true
    (r.1, [], .reloadDump r.2.1)
  else
    match splitNamespaced name with
    | none =>
        (g, [], .mcpError .invalidParams "Tool name must be namespaced as <upstream>.<tool>")
    | some (up, localName) =>
      match lookupUp g.upstreams up with
      | none => (g, [], .mcpError .invalidParams ("Unknown upstream: " ++ up))
      | some s =>
        let afterHeal :=
          if s.status ≠ .connected then
            (Gateway.mk (updateEntry g.upstreams up (syncUpstream env.sync s)) g.refreshing,
             [GEvent.syncAttempt up], syncUpstream env.sync s)
          else (g, ([] : List GEvent), s)
        match afterHeal.2.2.client with
        | none =>
            (afterHeal.1, afterHeal.2.1,
             .mcpError .internalError ("Upstream " ++ up ++ " unavailable"))
        | some c =>
            (afterHeal.1, afterHeal.2.1, .forwarded (env.forward c localName args task))

/-! ## Session/transport multiplexer (createStreamableEndpointHandler)

One endpoint's session state: the `transports` map from session id to
transport, the `activeTransport` pointer, the set of transports closed so
far, and a counter supplying fresh transport handles.  A request is
described by its session header and whether it is a POST carrying an
`initialize` message; `newSid` is the session id `crypto.randomUUID()`
would mint if a handshake completes.  The SDK behaviours folded in: a
successful `initialize` triggers `onsessioninitialized`, registering the
new transport under the minted id, and closing the previous transport
runs its `onclose`, clearing the active pointer and its map entry
(together with the handler's own `finally` cleanup, which clears the
whole map). -/

structure EndpointState where
  transports : List (String × Nat)
  activeTransport : Option Nat
  closed : List Nat
  nextTransportId : Nat
deriving DecidableEq, Repr

structure EndpointRequest where
  sessionId : Option String
  isInit : Bool
deriving DecidableEq, Repr

inductive EndpointResponse where
  | badRequest
  | handled (transport : Nat)
deriving DecidableEq, Repr

def lookupSid (ts : List (String × Nat)) (sid : String) : Option Nat :=
  (ts.find? fun p => p.1 = sid).map Prod.snd

def handleEndpointRequest (s : EndpointState) (req : EndpointRequest) (newSid : String) :
    EndpointState × EndpointResponse :=
  let existing := match req.sessionId with
    | some sid => lookupSid s.transports sid
    | none => none
  match existing with
  | some t => (s, .handled t)
  | none =>
    if req.sessionId.isSome ∨ req.isInit = false then (s, .badRequest)
    else
      let s1 := match s.activeTransport with
        | some t =>
            { s with
                closed := t :: s.closed
                activeTransport := none
                transports := [] }
        | none => s
      let tid := s1.nextTransportId
      ({ s1 with
           transports := s1.transports ++ [(newSid, tid)]
           activeTransport := some tid
           nextTransportId := tid + 1 },
        .handled tid)

/-- The single-active-session invariant: at most one registered session,
and every registered session's transport is the active one. -/
def SingleActive (s : EndpointState) : Prop :=
  s.transports.length ≤ 1 ∧ ∀ p ∈ s.transports, s.activeTransport = some p.2

/-! ## Concrete fixtures used by witnesses and counterexamples -/

def ctx0 : GatewayCtx :=
  { publicUrl := "https://gw.example.com", gatewayPath := "/gateway", port := 3000 }

def toolOldC2 : Tool := { name := "get_forecast", description := none, meta := none, rest := 10 }

def toolNewC2 : Tool := { name := "get_forecast", description := none, meta := none, rest := 11 }

def cfgWeather : UpstreamConfig :=
  { name := "weather", url := "https://weather.example.com/mcp", description := none,
    enabled := true, headers := none }

/-- A `weather` connection whose previous sync failed: client handle
still present, one stale cached tool. -/
def stateWeatherErr : UpstreamState :=
  { config := cfgWeather, client := some 3, transport := some 4, tools := [toolOldC2],
    prompts := [], resources := [], resourceTemplates := [], status := .error,
    lastError := none, lastSync := some "2026-01-01T00:00:00.000Z",
    configHash := hashConfig cfgWeather }

/-- A sync environment that connects and lists tools fine but fails at
prompt listing. -/
def envPromptFail : SyncEnv :=
  { connectResult := .ok 9, newTransport := 9, listToolsResult := .ok [toolNewC2],
    capsPrompts := true, capsResources := true,
    listPromptsResult := .error "prompt listing failed",
    listResourcesResult := .ok [], now := "2026-01-02T00:00:00.000Z" }

/-- A sync environment whose tool listing fails. -/
def envToolsFail : SyncEnv :=
  { connectResult := .ok 9, newTransport := 9, listToolsResult := .error "listing failed",
    capsPrompts := false, capsResources := false, listPromptsResult := .error "x",
    listResourcesResult := .error "x", now := "2026-01-03T00:00:00.000Z" }

def gWeatherErr : Gateway :=
  { upstreams := [("weather", stateWeatherErr)], refreshing := false }

def callEnvC3 : CallEnv :=
  { sync := envToolsFail, forward := fun _ _ _ _ => 42,
    reload := { envVars := [], source := .missing, syncEnvs := fun _ => envToolsFail } }

def cfgA : UpstreamConfig :=
  { name := "alpha", url := "https://a.example.com/mcp", description := none,
    enabled := true, headers := none }

def toolT1 : Tool := { name := "t1", description := none, meta := none, rest := 5 }

/-- A sync environment that succeeds with a fresh client and one tool. -/
def sEnvA : SyncEnv :=
  { connectResult := .ok 1, newTransport := 2, listToolsResult := .ok [toolT1],
    capsPrompts := false, capsResources := false, listPromptsResult := .error "x",
    listResourcesResult := .error "y", now := "T1" }

def gA : Gateway := { upstreams := [("alpha", freshUpstreamState cfgA)], refreshing := false }

def renvA : ReloadEnv := { envVars := [], source := .doc [cfgA], syncEnvs := fun _ => sEnvA }

def renvBad : ReloadEnv :=
  { envVars := [], source := .invalid "Invalid upstream config at /etc/upstreams.json",
    syncEnvs := fun _ => envToolsFail }

def renvMissing : ReloadEnv :=
  { envVars := [], source := .missing, syncEnvs := fun _ => envToolsFail }

/-- An endpoint with one live initialized session `sid-1` on transport 0. -/
def endpoint0 : EndpointState :=
  { transports := [("sid-1", 0)], activeTransport := some 0, closed := [],
    nextTransportId := 1 }

/-! ## Theorems -/

theorem b64Value_b64Char : ∀ n < 64, b64Value (b64Char n) = n := by decide

/-- Induction in the 3-byte groups used by the base64 encoder. -/
theorem chunk3_induction (P : List Nat → Prop) (h0 : P []) (h1 : ∀ a, P [a])
    (h2 : ∀ a b, P [a, b]) (h3 : ∀ a b c rest, P rest → P (a :: b :: c :: rest)) :
    ∀ l, P l
  | [] => h0
  | [a] => h1 a
  | [a, b] => h2 a b
  | a :: b :: c :: rest => h3 a b c rest (chunk3_induction P h0 h1 h2 h3 rest)

theorem base64urlEncodeVals_lt (l : List Nat) (h : ∀ b ∈ l, b < 256) :
    ∀ v ∈ base64urlEncodeVals l, v < 64 := by
  induction l using chunk3_induction with
  | h0 => simp [base64urlEncodeVals]
  | h1 a =>
      intro v hv
      have ha := h a (by simp)
      simp only [base64urlEncodeVals, List.mem_cons, List.not_mem_nil, or_false] at hv
      rcases hv with rfl | rfl <;> omega
  | h2 a b =>
      intro v hv
      have ha := h a (by simp)
      have hb := h b (by simp)
      simp only [base64urlEncodeVals, List.mem_cons, List.not_mem_nil, or_false] at hv
      rcases hv with rfl | rfl | rfl <;> omega
  | h3 a b c rest ih =>
      intro v hv
      have ha := h a (by simp)
      have hb := h b (by simp)
      have hc := h c (by simp)
      simp only [base64urlEncodeVals, List.mem_cons] at hv
      rcases hv with rfl | rfl | rfl | rfl | hv
      · omega
      · omega
      · omega
      · omega
      · exact ih (fun x hx => h x (by simp [hx])) v hv

theorem map_b64Value_b64Char (vals : List Nat) (h : ∀ v ∈ vals, v < 64) :
    (vals.map b64Char).map b64Value = vals := by
  induction vals with
  | nil => rfl
  | cons v vs ih =>
      simp only [List.map_cons, List.cons.injEq]
      exact ⟨b64Value_b64Char v (h v (by simp)), ih (fun x hx => h x (by simp [hx]))⟩

theorem base64urlDecodeVals_encodeVals (l : List Nat) (h : ∀ b ∈ l, b < 256) :
    base64urlDecodeVals (base64urlEncodeVals l) = l := by
  induction l using chunk3_induction with
  | h0 => rfl
  | h1 a =>
      have ha := h a (by simp)
      simp only [base64urlEncodeVals, base64urlDecodeVals, List.cons.injEq, and_true]
      omega
  | h2 a b =>
      have ha := h a (by simp)
      have hb := h b (by simp)
      simp only [base64urlEncodeVals, base64urlDecodeVals, List.cons.injEq, and_true]
      exact ⟨by omega, by omega⟩
  | h3 a b c rest ih =>
      have ha := h a (by simp)
      have hb := h b (by simp)
      have hc := h c (by simp)
      simp only [base64urlEncodeVals, base64urlDecodeVals, List.cons.injEq]
      refine ⟨by omega, by omega, by omega, ?_⟩
      exact ih (fun x hx => h x (by simp [hx]))

theorem base64urlDecode_encode (bytes : List Nat) (h : ∀ b ∈ bytes, b < 256) :
    base64urlDecode (base64urlEncode bytes) = bytes := by
  unfold base64urlDecode base64urlEncode
  rw [map_b64Value_b64Char _ (base64urlEncodeVals_lt bytes h)]
  exact base64urlDecodeVals_encodeVals bytes h

theorem base64urlEncode_ne_nil (bytes : List Nat) (h : bytes ≠ []) :
    base64urlEncode bytes ≠ [] := by
  match bytes with
  | [] => exact absurd rfl h
  | [a] => simp [base64urlEncode, base64urlEncodeVals]
  | [a, b] => simp [base64urlEncode, base64urlEncodeVals]
  | a :: b :: c :: rest => simp [base64urlEncode, base64urlEncodeVals]

theorem takeWhile_append_all {α} (p : α → Bool) (l₁ l₂ : List α) (h : l₁.all p = true) :
    (l₁ ++ l₂).takeWhile p = l₁ ++ l₂.takeWhile p := by
  induction l₁ with
  | nil => rfl
  | cons a l ih =>
      simp only [List.all_cons, Bool.and_eq_true] at h
      simp [List.takeWhile_cons, h.1, ih h.2]

theorem dropWhile_append_all {α} (p : α → Bool) (l₁ l₂ : List α) (h : l₁.all p = true) :
    (l₁ ++ l₂).dropWhile p = l₂.dropWhile p := by
  induction l₁ with
  | nil => rfl
  | cons a l ih =>
      simp only [List.all_cons, Bool.and_eq_true] at h
      simp [List.dropWhile_cons, h.1, ih h.2]

theorem takeWhile_of_all {α} (p : α → Bool) (l : List α) (h : l.all p = true) :
    l.takeWhile p = l := by
  induction l with
  | nil => rfl
  | cons a l ih =>
      simp only [List.all_cons, Bool.and_eq_true] at h
      simp [List.takeWhile_cons, h.1, ih h.2]

theorem dropWhile_of_all {α} (p : α → Bool) (l : List α) (h : l.all p = true) :
    l.dropWhile p = [] := by
  induction l with
  | nil => rfl
  | cons a l ih =>
      simp only [List.all_cons, Bool.and_eq_true] at h
      simp [List.dropWhile_cons, h.1, ih h.2]

theorem isNameChar_ne {c x : Char} (h : isNameChar c = true) (hx : isNameChar x = false) :
    c ≠ x := by
  intro hcx
  rw [hcx, hx] at h
  exact Bool.false_ne_true h

theorem nameChar_not_authorityEnd {c : Char} (h : isNameChar c = true) :
    isAuthorityEnd c = false := by
  unfold isAuthorityEnd
  simp only [Bool.or_eq_false_iff, decide_eq_false_iff_not]
  repeat' apply And.intro
  all_goals exact isNameChar_ne h (by decide)

theorem nameChar_not_pathEnd {c : Char} (h : isNameChar c = true) :
    isPathEnd c = false := by
  unfold isPathEnd
  simp only [Bool.or_eq_false_iff, decide_eq_false_iff_not]
  repeat' apply And.intro
  all_goals exact isNameChar_ne h (by decide)

theorem nameChar_not_forbidden {c : Char} (h : isNameChar c = true) :
    forbiddenHostChar c = false := by
  unfold forbiddenHostChar
  simp only [Bool.or_eq_false_iff, decide_eq_false_iff_not]
  repeat' apply And.intro
  all_goals exact isNameChar_ne h (by decide)

theorem b64Char_isNameChar : ∀ n < 64, isNameChar (b64Char n) = true := by decide

theorem base64urlEncode_all_nameChar (bytes : List Nat) (h : ∀ b ∈ bytes, b < 256) :
    (base64urlEncode bytes).all isNameChar = true := by
  rw [List.all_eq_true]
  intro c hc
  rcases List.mem_map.mp hc with ⟨v, hv, rfl⟩
  exact b64Char_isNameChar v (base64urlEncodeVals_lt bytes h v hv)

theorem string_mk_data (s : String) : String.mk s.data = s := rfl

/-- Computation of the modelled URL parse on a gateway-produced resource
URI: authority made of registry name characters, path made of base64url
characters. -/
theorem parseUrl_proxy (host path : List Char)
    (hhost : host.all isNameChar = true) (hpath : path.all isNameChar = true) :
    parseUrl ⟨"mcp+proxy".toList ++ ':' :: '/' :: '/' :: (host ++ '/' :: path)⟩ =
      some ⟨"mcp+proxy:", ⟨host⟩, ⟨'/' :: path⟩⟩ := by
  have hmem := List.all_eq_true.mp hhost
  have pmem := List.all_eq_true.mp hpath
  have hostNeColon : host.all (fun c => c != ':') = true :=
    List.all_eq_true.mpr fun c hc => bne_iff_ne.mpr (isNameChar_ne (hmem c hc) (by decide))
  have hostNotEnd : host.all (fun c => ! isAuthorityEnd c) = true :=
    List.all_eq_true.mpr fun c hc => by
      simp [nameChar_not_authorityEnd (hmem c hc)]
  have pathNotEnd : ('/' :: path).all (fun c => ! isPathEnd c) = true := by
    rw [List.all_cons, show (! isPathEnd '/') = true from by decide, Bool.true_and]
    exact List.all_eq_true.mpr fun c hc => by simp [nameChar_not_pathEnd (pmem c hc)]
  have e1 : List.takeWhile (fun c => c != ':')
      (['m', 'c', 'p', '+', 'p', 'r', 'o', 'x', 'y'] ++
        ':' :: '/' :: '/' :: (host ++ '/' :: path)) =
      ['m', 'c', 'p', '+', 'p', 'r', 'o', 'x', 'y'] := by
    rw [takeWhile_append_all _ _ _ (by decide)]
    simp
  have e2 : List.dropWhile (fun c => c != ':')
      (['m', 'c', 'p', '+', 'p', 'r', 'o', 'x', 'y'] ++
        ':' :: '/' :: '/' :: (host ++ '/' :: path)) =
      ':' :: '/' :: '/' :: (host ++ '/' :: path) := by
    rw [dropWhile_append_all _ _ _ (by decide)]
    simp
  have e3 : List.takeWhile (fun c => ! isAuthorityEnd c) (host ++ '/' :: path) = host := by
    rw [takeWhile_append_all _ _ _ hostNotEnd]
    simp [List.takeWhile_cons, isAuthorityEnd]
  have e4 : List.dropWhile (fun c => ! isAuthorityEnd c) (host ++ '/' :: path) =
      '/' :: path := by
    rw [dropWhile_append_all _ _ _ hostNotEnd]
    simp [List.dropWhile_cons, isAuthorityEnd]
  have e5 : List.takeWhile (fun c => c != ':') host = host :=
    takeWhile_of_all _ _ hostNeColon
  have e6 : List.dropWhile (fun c => c != ':') host = [] :=
    dropWhile_of_all _ _ hostNeColon
  have e7 : host.any (fun c => c == '@') = false := by
    rw [Bool.eq_false_iff, Ne, List.any_eq_true]
    rintro ⟨c, hc, hat⟩
    exact isNameChar_ne (hmem c hc) (by decide) (eq_of_beq hat)
  have e8 : host.any forbiddenHostChar = false := by
    rw [Bool.eq_false_iff, Ne, List.any_eq_true]
    rintro ⟨c, hc, hforb⟩
    rw [nameChar_not_forbidden (hmem c hc)] at hforb
    exact Bool.false_ne_true hforb
  have e9 : List.takeWhile (fun c => ! isPathEnd c) ('/' :: path) = '/' :: path :=
    takeWhile_of_all _ _ pathNotEnd
  unfold parseUrl
  simp only [String.toList]
  simp only [e1, e2, e3, e4, e5, e6, e7, e8, e9]
  simp +decide

/-- C1 (amended): for every registry-accepted upstream name and every
**nonempty** native resource URI (as UTF-8 bytes, including `.`, `:` and
non-ASCII bytes), decoding the encoded gateway URI returns exactly the
original pair.  (The empty native URI is the exception forced by the
counterexample: its encoded form decodes to `none`.) -/
theorem resource_uri_roundtrip (upstream : String) (uriBytes : List Nat)
    (hname : validUpstreamName upstream = true)
    (hne : uriBytes ≠ [])
    (hbytes : ∀ b ∈ uriBytes, b < 256) :
    decodeResourceUri (encodeResourceUri upstream uriBytes) = some (upstream, uriBytes) := by
  unfold validUpstreamName at hname
  simp only [Bool.and_eq_true, decide_eq_true_eq] at hname
  obtain ⟨⟨hlen1, _⟩, hchars⟩ := hname
  have hshape : encodeResourceUri upstream uriBytes =
      ⟨"mcp+proxy".toList ++ ':' :: '/' :: '/' ::
        (upstream.data ++ '/' :: base64urlEncode uriBytes)⟩ := by
    show resourceScheme ++ "//" ++ upstream ++ "/" ++ ⟨base64urlEncode uriBytes⟩ = _
    apply String.ext
    simp [resourceScheme, String.data_append]
  rw [hshape]
  unfold decodeResourceUri
  rw [parseUrl_proxy upstream.data (base64urlEncode uriBytes) hchars
    (base64urlEncode_all_nameChar uriBytes hbytes)]
  have hupne : (⟨upstream.data⟩ : String) ≠ "" := by
    rw [string_mk_data]
    intro hempty
    rw [hempty] at hlen1
    exact absurd hlen1 (by decide)
  have hencne : (⟨base64urlEncode uriBytes⟩ : String) ≠ "" := by
    intro hempty
    have : base64urlEncode uriBytes = [] := congrArg String.data hempty
    exact base64urlEncode_ne_nil uriBytes hne this
  simp only [resourceScheme, ne_eq, not_true_eq_false, if_false,
    stripLeadingSlash, String.toList]
  rw [if_neg (by simp [hupne, hencne]), string_mk_data]
  rw [base64urlDecode_encode uriBytes hbytes]

/-- C1 witness: a concrete round trip through the codec, with a native
URI whose bytes include `.` (46), `:` (58) and the non-ASCII UTF-8
bytes 195, 169. -/
theorem resource_uri_roundtrip_witness :
    decodeResourceUri (encodeResourceUri "Weather-9_x" [195, 169, 46, 58]) =
      some ("Weather-9_x", [195, 169, 46, 58]) :=
  resource_uri_roundtrip "Weather-9_x" [195, 169, 46, 58] (by decide) (by decide)
    (by decide)

/-- C1 counterexample: the claim quantifies over *every* native resource
URI string, but the empty native URI does not round-trip: its encoded
form `mcp+proxy://alpha/` decodes to `none` (the decoder rejects an
empty encoded path), not to the original pair. -/
theorem resource_uri_empty_cex :
    validUpstreamName "alpha" = true ∧
    decodeResourceUri (encodeResourceUri "alpha" []) = none := by
  constructor
  · decide
  · decide

/-! ### Association-list facts about the upstream map -/

theorem lookupUp_cons_pos (k n : String) (v : UpstreamState)
    (rest : List (String × UpstreamState)) (h : k = n) :
    lookupUp ((k, v) :: rest) n = some v := by
  subst h
  simp [lookupUp]

theorem lookupUp_cons_neg (k n : String) (v : UpstreamState)
    (rest : List (String × UpstreamState)) (h : ¬ k = n) :
    lookupUp ((k, v) :: rest) n = lookupUp rest n := by
  simp [lookupUp, List.find?_cons, h]

theorem lookupUp_updateEntry_ne (ups : List (String × UpstreamState)) (name other : String)
    (s : UpstreamState) (h : other ≠ name) :
    lookupUp (updateEntry ups name s) other = lookupUp ups other := by
  induction ups with
  | nil => rfl
  | cons p rest ih =>
      rcases p with ⟨k, v⟩
      simp only [updateEntry, List.map_cons]
      by_cases hkn : k = name
      · rw [if_pos hkn]
        have hko : ¬ k = other := fun hk => h (hk ▸ hkn)
        rw [lookupUp_cons_neg _ _ _ _ hko, lookupUp_cons_neg _ _ _ _ hko]
        exact ih
      · rw [if_neg hkn]
        by_cases hko : k = other
        · rw [lookupUp_cons_pos _ _ _ _ hko, lookupUp_cons_pos _ _ _ _ hko]
        · rw [lookupUp_cons_neg _ _ _ _ hko, lookupUp_cons_neg _ _ _ _ hko]
          exact ih

theorem lookupUp_append_some (ups l2 : List (String × UpstreamState)) (n : String)
    (s : UpstreamState) (h : lookupUp ups n = some s) :
    lookupUp (ups ++ l2) n = some s := by
  induction ups with
  | nil => exact absurd h (by simp [lookupUp])
  | cons p rest ih =>
      rcases p with ⟨k, v⟩
      rw [List.cons_append]
      by_cases hp : k = n
      · rw [lookupUp_cons_pos _ _ _ _ hp] at h
        rw [lookupUp_cons_pos _ _ _ _ hp]
        exact h
      · rw [lookupUp_cons_neg _ _ _ _ hp] at h
        rw [lookupUp_cons_neg _ _ _ _ hp]
        exact ih h

theorem lookupUp_append_left_none (ups l2 : List (String × UpstreamState)) (n : String)
    (h : lookupUp ups n = none) :
    lookupUp (ups ++ l2) n = lookupUp l2 n := by
  induction ups with
  | nil => rfl
  | cons p rest ih =>
      rcases p with ⟨k, v⟩
      rw [List.cons_append]
      by_cases hp : k = n
      · rw [lookupUp_cons_pos _ _ _ _ hp] at h
        exact absurd h (by simp)
      · rw [lookupUp_cons_neg _ _ _ _ hp] at h
        rw [lookupUp_cons_neg _ _ _ _ hp]
        exact ih h

theorem lookupUp_filter_mem (ups : List (String × UpstreamState)) (n : String)
    (names : List String) (hn : n ∈ names) :
    lookupUp (ups.filter fun p => decide (p.1 ∈ names)) n = lookupUp ups n := by
  induction ups with
  | nil => rfl
  | cons p rest ih =>
      rcases p with ⟨k, v⟩
      by_cases hp : k = n
      · have hkmem : k ∈ names := hp ▸ hn
        rw [List.filter_cons, if_pos (by simpa using hkmem)]
        rw [lookupUp_cons_pos _ _ _ _ hp, lookupUp_cons_pos _ _ _ _ hp]
      · by_cases hmem : k ∈ names
        · rw [List.filter_cons, if_pos (by simpa using hmem)]
          rw [lookupUp_cons_neg _ _ _ _ hp, lookupUp_cons_neg _ _ _ _ hp]
          exact ih
        · rw [List.filter_cons, if_neg (by simpa using hmem)]
          rw [ih, lookupUp_cons_neg _ _ _ _ hp]

theorem lookupUp_filter_not_mem (ups : List (String × UpstreamState)) (n : String)
    (names : List String) (hn : n ∉ names) :
    lookupUp (ups.filter fun p => decide (p.1 ∈ names)) n = none := by
  induction ups with
  | nil => rfl
  | cons p rest ih =>
      rcases p with ⟨k, v⟩
      by_cases hmem : k ∈ names
      · rw [List.filter_cons, if_pos (by simpa using hmem)]
        have hp : ¬ k = n := fun hp => hn (hp ▸ hmem)
        rw [lookupUp_cons_neg _ _ _ _ hp]
        exact ih
      · rw [List.filter_cons, if_neg (by simpa using hmem)]
        exact ih

theorem lookupUp_map_entries (ups : List (String × UpstreamState))
    (f : String → UpstreamState → UpstreamState) (n : String) :
    lookupUp (ups.map fun p => (p.1, f p.1 p.2)) n = (lookupUp ups n).map (f n) := by
  induction ups with
  | nil => rfl
  | cons p rest ih =>
      rcases p with ⟨k, v⟩
      simp only [List.map_cons]
      by_cases hk : k = n
      · subst hk
        rw [lookupUp_cons_pos _ _ _ _ rfl, lookupUp_cons_pos _ _ _ _ rfl]
        rfl
      · rw [lookupUp_cons_neg _ _ _ _ hk, lookupUp_cons_neg _ _ _ _ hk]
        exact ih

theorem lookupUp_singleton_ne (k n : String) (v : UpstreamState) (h : ¬ k = n) :
    lookupUp [(k, v)] n = none := by
  rw [lookupUp_cons_neg _ _ _ _ h]
  rfl

theorem foldl_upsert_not_mem (force : Bool) (cfgs : List UpstreamConfig) :
    ∀ (acc : List (String × UpstreamState) × List Nat) (n : String),
      lookupUp acc.1 n = none → (∀ cfg ∈ cfgs, cfg.name ≠ n) →
      lookupUp (cfgs.foldl (upsertOne force) acc).1 n = none := by
  induction cfgs with
  | nil => exact fun acc n h _ => h
  | cons cfg rest ih =>
      intro acc n h hall
      rw [List.foldl_cons]
      refine ih _ n ?_ (fun c hc => hall c (by simp [hc]))
      unfold upsertOne
      cases hl : lookupUp acc.1 cfg.name with
      | none =>
          dsimp only
          rw [lookupUp_append_left_none _ _ _ h]
          exact lookupUp_singleton_ne _ _ _ (hall cfg (by simp))
      | some s =>
          dsimp only
          by_cases hchange : s.configHash ≠ hashConfig cfg ∨ force = true
          · rw [if_pos hchange]
            rw [lookupUp_updateEntry_ne _ _ _ _ (fun hnn => hall cfg (by simp) hnn.symm)]
            exact h
          · rw [if_neg hchange]
            exact h

theorem foldl_upsert_unchanged (cfgs : List UpstreamConfig) :
    ∀ (acc : List (String × UpstreamState) × List Nat) (n : String) (s : UpstreamState),
      lookupUp acc.1 n = some s →
      (∀ cfg ∈ cfgs, cfg.name = n → hashConfig cfg = s.configHash) →
      lookupUp (cfgs.foldl (upsertOne false) acc).1 n = some s := by
  induction cfgs with
  | nil => exact fun acc n s h _ => h
  | cons cfg rest ih =>
      intro acc n s h hc
      rw [List.foldl_cons]
      refine ih _ n s ?_ (fun c hcm => hc c (by simp [hcm]))
      unfold upsertOne
      by_cases hn : cfg.name = n
      · have hhash := hc cfg (by simp) hn
        rw [hn, h]
        dsimp only
        rw [if_neg (by simp [hhash])]
        exact h
      · cases hl : lookupUp acc.1 cfg.name with
        | none =>
            dsimp only
            exact lookupUp_append_some _ _ _ _ h
        | some s2 =>
            dsimp only
            by_cases hchange : s2.configHash ≠ hashConfig cfg ∨ false = true
            · rw [if_pos hchange]
              rw [lookupUp_updateEntry_ne _ _ _ _ (fun hnn => hn hnn.symm)]
              exact h
            · rw [if_neg hchange]
              exact h

/-! ### C2 — synchronization failure handling -/

/-- C2 (amended): when a synchronization attempt on an enabled upstream
fails, its status becomes `error`, `lastError` records the failure
message, and `lastSync`, the config and the hash are untouched; a
failure at connect or at tool listing leaves all three cached listings
exactly as they were, a failure at prompt listing leaves prompts and
resources untouched but has already replaced the tool cache, and a
failure at resource listing leaves resources untouched but has already
replaced the tool and prompt caches; and synchronizing one map entry
never changes any other upstream's entry.  (The claim's stronger
"all caches exactly as before the attempt" is refuted by the
counterexample: replacement is per-listing, not transactional across
the three listings.) -/
theorem syncUpstream_failure_isolation (env : SyncEnv) (s : UpstreamState)
    (henabled : s.config.enabled = true) :
    (∀ e, s.client = none → env.connectResult = .error e →
      syncUpstream env s = { s with status := .error, lastError := some e }) ∧
    (∀ c e, s.client = some c → env.listToolsResult = .error e →
      syncUpstream env s = { s with status := .error, lastError := some e }) ∧
    (∀ c e, s.client = none → env.connectResult = .ok c →
      env.listToolsResult = .error e →
      syncUpstream env s =
        { s with
            client := some c
            transport := some env.newTransport
            status := .error
            lastError := some e }) ∧
    (∀ c ts e, s.client = some c → env.listToolsResult = .ok ts →
      env.capsPrompts = true → env.listPromptsResult = .error e →
      syncUpstream env s =
        { s with tools := ts, status := .error, lastError := some e }) ∧
    (∀ c ts ps e, s.client = some c → env.listToolsResult = .ok ts →
      env.capsPrompts = true → env.listPromptsResult = .ok ps →
      env.capsResources = true → env.listResourcesResult = .error e →
      syncUpstream env s =
        { s with tools := ts, prompts := ps, status := .error, lastError := some e }) ∧
    (∀ (ups : List (String × UpstreamState)) (name other : String) (s' : UpstreamState),
      other ≠ name → lookupUp (updateEntry ups name s') other = lookupUp ups other) := by
  refine ⟨?_, ?_, ?_, ?_, ?_, fun ups name other s' h => lookupUp_updateEntry_ne ups name other s' h⟩
  · intro e hclient hconn
    simp [syncUpstream, henabled, hclient, hconn, syncFail]
  · intro c e hclient hlt
    simp [syncUpstream, henabled, hclient, syncListTools, hlt, syncFail]
  · intro c e hclient hconn hlt
    simp [syncUpstream, henabled, hclient, hconn, syncListTools, hlt, syncFail]
  · intro c ts e hclient hlt hcaps hlp
    simp [syncUpstream, henabled, hclient, syncListTools, hlt, syncListPrompts, hcaps,
      hlp, syncFail]
  · intro c ts ps e hclient hlt hcaps hlp hcapsR hlr
    simp [syncUpstream, henabled, hclient, syncListTools, hlt, syncListPrompts, hcaps,
      hlp, syncListResources, hcapsR, hlr, syncFail]

/-- C2 witness: a concrete enabled upstream with a stale cached tool
list; the attempt connects and lists tools but fails at prompt listing,
leaving status `error`, the recorded message, and the already-replaced
tool cache. -/
theorem syncUpstream_failure_isolation_witness :
    syncUpstream envPromptFail stateWeatherErr =
      { stateWeatherErr with
          tools := [toolNewC2]
          status := .error
          lastError := some "prompt listing failed" } :=
  (syncUpstream_failure_isolation envPromptFail stateWeatherErr rfl).2.2.2.1 3 [toolNewC2]
    "prompt listing failed" rfl rfl rfl rfl

/-- C2 counterexample: the claim as stated says a failed attempt leaves
the cached tools exactly as they were; but when tool listing succeeds
and prompt listing then fails, the sync ends in `error` with the tool
cache already replaced. -/
theorem syncUpstream_partial_replace_cex :
    (syncUpstream envPromptFail stateWeatherErr).status = .error ∧
    (syncUpstream envPromptFail stateWeatherErr).lastError = some "prompt listing failed" ∧
    (syncUpstream envPromptFail stateWeatherErr).tools ≠ stateWeatherErr.tools := by
  refine ⟨by decide, by decide, by decide⟩

/-! ### C3 — self-heal on dispatch to a non-connected upstream -/

/-- C3 (amended): dispatching to a configured upstream whose status is
not `connected` makes exactly one synchronization attempt before
dispatching; if a client handle exists after that attempt the call is
forwarded (local name, arguments, task) and the upstream's response
returned unmodified — even if the attempt itself failed — and if no
client handle exists the call fails with an internal error naming the
upstream as unavailable.  (The claim's "if that attempt fails the call
fails" is refuted by the counterexample: the code gates forwarding on
the presence of a client handle, not on the attempt's success.) -/
theorem callTool_selfheal (ctx : GatewayCtx) (env : CallEnv) (g : Gateway)
    (name up loc : String) (args : Option ToolArgs) (task : Option Nat) (s : UpstreamState)
    (hname1 : name ≠ gatewayPrefix ++ ".list_upstreams")
    (hname2 : name ≠ gatewayPrefix ++ ".reload_upstreams")
    (hsplit : splitNamespaced name = some (up, loc))
    (hlook : lookupUp g.upstreams up = some s)
    (hstatus : s.status ≠ .connected) :
    (callTool ctx env g name args task).2.1 = [GEvent.syncAttempt up] ∧
    (callTool ctx env g name args task).1 =
      Gateway.mk (updateEntry g.upstreams up (syncUpstream env.sync s)) g.refreshing ∧
    (∀ c, (syncUpstream env.sync s).client = some c →
      (callTool ctx env g name args task).2.2 = .forwarded (env.forward c loc args task)) ∧
    ((syncUpstream env.sync s).client = none →
      (callTool ctx env g name args task).2.2 =
        .mcpError .internalError ("Upstream " ++ up ++ " unavailable")) := by
  rcases hcl : (syncUpstream env.sync s).client with _ | c <;>
    simp only [callTool, if_neg hname1, if_neg hname2, hsplit, hlook, if_pos hstatus, hcl] <;>
    simp [hcl]

/-- C3 witness: `weather` is in `error` status with a live client handle;
the self-heal attempt runs (one sync event) and the call is forwarded,
returning the upstream's response `42` unmodified. -/
theorem callTool_selfheal_witness :
    (callTool ctx0 callEnvC3 gWeatherErr "weather.get_forecast" none none).2.1 =
      [GEvent.syncAttempt "weather"] ∧
    (callTool ctx0 callEnvC3 gWeatherErr "weather.get_forecast" none none).2.2 =
      .forwarded 42 := by
  have h := callTool_selfheal ctx0 callEnvC3 gWeatherErr "weather.get_forecast" "weather"
    "get_forecast" none none stateWeatherErr (by decide) (by decide) (by decide) (by decide)
    (by decide)
  refine ⟨h.1, ?_⟩
  rw [h.2.2.1 3 (by decide)]
  rfl

/-- C3 counterexample: the claim says a failed self-heal attempt makes
the call fail with an internal error; here the attempt fails (tool
listing errors, status stays `error`) yet the call is still forwarded,
because the stale client handle from the previous connection exists. -/
theorem callTool_forwards_after_failed_sync_cex :
    (syncUpstream callEnvC3.sync stateWeatherErr).status = .error ∧
    (callTool ctx0 callEnvC3 gWeatherErr "weather.get_forecast" none none).2.2 =
      .forwarded 42 := by
  refine ⟨by decide, by decide⟩

/-! ### C7 — malformed and unknown tool names -/

/-- C7: a dispatch whose name is neither gateway-native tool name fails
with an invalid-parameters error stating the required
`<upstream>.<tool>` shape when the name has no `.`, and with an
invalid-parameters error naming the unknown upstream when the prefix
matches no configured upstream; the gateway state is untouched in both
cases. -/
theorem callTool_invalid_name_errors (ctx : GatewayCtx) (env : CallEnv) (g : Gateway)
    (name : String) (args : Option ToolArgs) (task : Option Nat)
    (hname1 : name ≠ gatewayPrefix ++ ".list_upstreams")
    (hname2 : name ≠ gatewayPrefix ++ ".reload_upstreams") :
    (splitNamespaced name = none →
      callTool ctx env g name args task =
        (g, [], .mcpError .invalidParams
          "Tool name must be namespaced as <upstream>.<tool>")) ∧
    (∀ up loc, splitNamespaced name = some (up, loc) →
      lookupUp g.upstreams up = none →
      callTool ctx env g name args task =
        (g, [], .mcpError .invalidParams ("Unknown upstream: " ++ up))) := by
  constructor
  · intro hsplit
    simp [callTool, if_neg hname1, if_neg hname2, hsplit]
  · intro up loc hsplit hlook
    simp [callTool, if_neg hname1, if_neg hname2, hsplit, hlook]

/-- C7 witness: `plaintool` (no separator) yields the namespacing error;
`unknownupstream.some_tool` yields the unknown-upstream error naming
`unknownupstream`. -/
theorem callTool_invalid_name_errors_witness :
    callTool ctx0 callEnvC3 gWeatherErr "plaintool" none none =
      (gWeatherErr, [], .mcpError .invalidParams
        "Tool name must be namespaced as <upstream>.<tool>") ∧
    callTool ctx0 callEnvC3 gWeatherErr "unknownupstream.some_tool" none none =
      (gWeatherErr, [], .mcpError .invalidParams "Unknown upstream: unknownupstream") := by
  constructor
  · exact (callTool_invalid_name_errors ctx0 callEnvC3 gWeatherErr "plaintool" none none
      (by decide) (by decide)).1 (by decide)
  · have h := (callTool_invalid_name_errors ctx0 callEnvC3 gWeatherErr
      "unknownupstream.some_tool" none none (by decide) (by decide)).2
      "unknownupstream" "some_tool" (by decide) (by decide)
    simpa using h

/-! ### C8 — tool listing gated on connected status -/

/-- C8: `listTools` is a total function of the cached state (a listing
call never fails because an upstream is down) and returns the two
gateway-native descriptors plus, for exactly the upstreams whose status
is `connected`, each cached tool renamed to `<upstream>.<tool>`;
upstreams in `error` or `disabled` status contribute nothing.  (The
source's extra `!state.tools.length` guard only skips an empty map,
which contributes nothing either way.) -/
theorem listTools_connected_only (g : Gateway) :
    listTools g = gatewayTools ++ connectedUpstreamToolsSpec g.upstreams := by
  unfold listTools
  congr 1
  induction g.upstreams with
  | nil => rfl
  | cons p rest ih =>
      rcases p with ⟨n, s⟩
      simp only [upstreamToolEntries, connectedUpstreamToolsSpec]
      rw [ih]
      by_cases hs : s.status = .connected
      · by_cases ht : s.tools.length = 0
        · rw [if_pos (Or.inl ht), if_pos hs, List.length_eq_zero.mp ht]
          rfl
        · rw [if_neg (by simp [ht, hs]), if_pos hs]
      · rw [if_pos (Or.inr hs), if_neg hs]

/-! ### C4 — reload failures abort atomically -/

/-- C4: when the registry load fails (malformed or schema-invalid
document, duplicate name, unset env-var reference) or validation of the
loaded configs fails (reserved name `gateway`, a URL matching a gateway
endpoint after trailing-slash normalization, an unparsable URL), the
reload returns a single error and the gateway — every entry's config,
client handle, cached listings and status — is exactly as before. -/
theorem reloadUpstreams_failure_atomic (ctx : GatewayCtx) (renv : ReloadEnv) (g : Gateway)
    (force syncUps : Bool) (hidle : g.refreshing = false)
    (hfail : (∃ e, loadUpstreamsConfig renv.envVars renv.source = .error e) ∨
      (∃ cfgs err, loadUpstreamsConfig renv.envVars renv.source = .ok cfgs ∧
        validateUpstreams ctx cfgs = some err)) :
    (reloadUpstreams ctx renv g force syncUps).1 = g ∧
    ∃ msg, (reloadUpstreams ctx renv g force syncUps).2.1 = .failed msg := by
  rcases hfail with ⟨e, he⟩ | ⟨cfgs, err, hok, hval⟩
  · constructor
    · simp [reloadUpstreams, hidle, he]
    · exact ⟨e, by simp [reloadUpstreams, hidle, he]⟩
  · constructor
    · simp [reloadUpstreams, hidle, hok, hval]
    · exact ⟨err, by simp [reloadUpstreams, hidle, hok, hval]⟩

/-- C4 witness: a schema-invalid config document aborts the reload with
its error and leaves the gateway untouched. -/
theorem reloadUpstreams_failure_atomic_witness :
    (reloadUpstreams ctx0 renvBad gWeatherErr false true).1 = gWeatherErr ∧
    ∃ msg, (reloadUpstreams ctx0 renvBad gWeatherErr false true).2.1 = .failed msg :=
  reloadUpstreams_failure_atomic ctx0 renvBad gWeatherErr false true rfl
    (Or.inl ⟨"Invalid upstream config at /etc/upstreams.json", rfl⟩)

/-! ### C5 — upstreams absent from the new config are removed and closed -/

theorem lookupUp_mem (ups : List (String × UpstreamState)) (n : String) (s : UpstreamState)
    (h : lookupUp ups n = some s) : (n, s) ∈ ups := by
  unfold lookupUp at h
  cases hf : ups.find? (fun p => decide (p.1 = n)) with
  | none => rw [hf] at h; exact absurd h (by simp)
  | some p =>
      rw [hf] at h
      rcases p with ⟨k, v⟩
      have hkey : k = n := by simpa using List.find?_some hf
      have hsnd : v = s := by simpa using h
      subst hkey
      subst hsnd
      exact List.mem_of_find?_eq_some hf

/-- C5: after a reload whose (valid) new configuration omits an existing
upstream's name, that name is absent from the upstream map, its client
handle (when one existed) is among the handles closed by the reload
(close errors are swallowed by the code and cannot affect the result),
and the reload still succeeds. -/
theorem reloadUpstreams_removes_absent (ctx : GatewayCtx) (renv : ReloadEnv) (g : Gateway)
    (force syncUps : Bool) (incoming : List UpstreamConfig) (name : String)
    (s : UpstreamState)
    (hidle : g.refreshing = false)
    (hload : loadUpstreamsConfig renv.envVars renv.source = .ok incoming)
    (hval : validateUpstreams ctx incoming = none)
    (hlook : lookupUp g.upstreams name = some s)
    (habsent : name ∉ incoming.map (fun u => u.name)) :
    lookupUp (reloadUpstreams ctx renv g force syncUps).1.upstreams name = none ∧
    (∀ c, s.client = some c → c ∈ (reloadUpstreams ctx renv g force syncUps).2.2) ∧
    (∃ k, (reloadUpstreams ctx renv g force syncUps).2.1 = .ok k) := by
  have hkept : lookupUp (g.upstreams.filter fun p =>
      decide (p.1 ∈ incoming.map (fun u => u.name))) name = none :=
    lookupUp_filter_not_mem _ _ _ habsent
  have hnames : ∀ cfg ∈ incoming, cfg.name ≠ name := by
    intro cfg hc hcn
    exact habsent (hcn ▸ List.mem_map_of_mem (fun u => u.name) hc)
  have hbase : lookupUp (upsertAll force
      (g.upstreams.filter fun p => decide (p.1 ∈ incoming.map (fun u => u.name)))
      incoming).1 name = none :=
    foldl_upsert_not_mem force incoming _ name hkept hnames
  refine ⟨?_, ?_, ?_⟩
  · simp only [reloadUpstreams, hidle, Bool.false_eq_true, if_false, hload, hval]
    cases syncUps with
    | true =>
        simp only [if_true]
        rw [lookupUp_map_entries _ (fun k v => syncUpstream (renv.syncEnvs k) v) name]
        rw [hbase]
        rfl
    | false =>
        simp only [Bool.false_eq_true, if_false]
        exact hbase
  · intro c hc
    simp only [reloadUpstreams, hidle, Bool.false_eq_true, if_false, hload, hval]
    refine List.mem_append.mpr (Or.inl ?_)
    refine List.mem_filterMap.mpr ⟨(name, s), lookupUp_mem _ _ _ hlook, ?_⟩
    simp only [if_neg habsent]
    exact hc
  · simp only [reloadUpstreams, hidle, Bool.false_eq_true, if_false, hload, hval]
    exact ⟨_, rfl⟩

/-- C5 witness: the missing-file reload (zero incoming upstreams) removes
`weather`, closes its client handle 3, and reports success. -/
theorem reloadUpstreams_removes_absent_witness :
    lookupUp (reloadUpstreams ctx0 renvMissing gWeatherErr false false).1.upstreams
      "weather" = none ∧
    3 ∈ (reloadUpstreams ctx0 renvMissing gWeatherErr false false).2.2 ∧
    (∃ k, (reloadUpstreams ctx0 renvMissing gWeatherErr false false).2.1 = .ok k) := by
  have h := reloadUpstreams_removes_absent ctx0 renvMissing gWeatherErr false false []
    "weather" stateWeatherErr rfl rfl rfl (by decide) (by decide)
  exact ⟨h.1, h.2.1 3 rfl, h.2.2⟩

/-! ### C6 — reload and unchanged upstream entries -/

/-- C6 (amended): in a `force=false` reload, an existing entry whose
stored config hash equals its incoming config's hash is untouched by the
registry-reconciliation phase: if the reload does not request
synchronization the entry (client handle, cached listings, status,
everything) is exactly as before; if the reload also synchronizes, the
entry is exactly the result of the ordinary synchronization pass applied
to the untouched entry.  (The claim's unconditional "untouched by a
reload" is refuted by the counterexample: a reload that synchronizes —
e.g. the periodic timer reload — refreshes even unchanged upstreams,
replacing listings and establishing client handles.) -/
theorem reloadUpstreams_unchanged_entry (ctx : GatewayCtx) (renv : ReloadEnv) (g : Gateway)
    (syncUps : Bool) (incoming : List UpstreamConfig) (cfg : UpstreamConfig)
    (name : String) (s : UpstreamState)
    (hidle : g.refreshing = false)
    (hload : loadUpstreamsConfig renv.envVars renv.source = .ok incoming)
    (hval : validateUpstreams ctx incoming = none)
    (hnodup : (incoming.map (fun u => u.name)).Nodup)
    (hcfg : cfg ∈ incoming) (hcfgname : cfg.name = name)
    (hlook : lookupUp g.upstreams name = some s)
    (hhash : s.configHash = hashConfig cfg) :
    (syncUps = false →
      lookupUp (reloadUpstreams ctx renv g false syncUps).1.upstreams name = some s) ∧
    (syncUps = true →
      lookupUp (reloadUpstreams ctx renv g false syncUps).1.upstreams name =
        some (syncUpstream (renv.syncEnvs name) s)) := by
  have hmemname : name ∈ incoming.map (fun u => u.name) :=
    hcfgname ▸ List.mem_map_of_mem (fun u => u.name) hcfg
  have hkept : lookupUp (g.upstreams.filter fun p =>
      decide (p.1 ∈ incoming.map (fun u => u.name))) name = some s := by
    rw [lookupUp_filter_mem _ _ _ hmemname]
    exact hlook
  have hc : ∀ c ∈ incoming, c.name = name → hashConfig c = s.configHash := by
    intro c hcmem hcname
    have hceq : c = cfg :=
      List.inj_on_of_nodup_map hnodup hcmem hcfg (by rw [hcname, hcfgname])
    rw [hceq]
    exact hhash.symm
  have hbase : lookupUp (upsertAll false
      (g.upstreams.filter fun p => decide (p.1 ∈ incoming.map (fun u => u.name)))
      incoming).1 name = some s :=
    foldl_upsert_unchanged incoming _ name s hkept hc
  constructor
  · intro hsync
    subst hsync
    simp only [reloadUpstreams, hidle, Bool.false_eq_true, if_false, hload, hval]
    exact hbase
  · intro hsync
    subst hsync
    simp only [reloadUpstreams, hidle, Bool.false_eq_true, if_false, hload, hval, if_true]
    rw [lookupUp_map_entries _ (fun k v => syncUpstream (renv.syncEnvs k) v) name, hbase]
    rfl

/-- C6 witness: a no-sync reload (`force=false`) of the unchanged `alpha`
entry leaves it identical. -/
theorem reloadUpstreams_unchanged_entry_witness :
    lookupUp (reloadUpstreams ctx0 renvA gA false false).1.upstreams "alpha" =
      some (freshUpstreamState cfgA) :=
  (reloadUpstreams_unchanged_entry ctx0 renvA gA false [cfgA] cfgA "alpha"
    (freshUpstreamState cfgA) rfl rfl rfl (by decide) (by decide) rfl
    (by decide) rfl).1 rfl

/-- C6 counterexample: the claim says an entry with unchanged hash keeps
its client handle and cached listings untouched by every `force=false`
reload; but the timer-style reload (`syncUpstreams=true`) synchronizes
the unchanged `alpha` entry, establishing a client handle (none before,
`some 1` after) and replacing its empty tool cache with the freshly
listed tools. -/
theorem reload_refreshes_unchanged_cex :
    (freshUpstreamState cfgA).configHash = hashConfig cfgA ∧
    (freshUpstreamState cfgA).client = none ∧
    (freshUpstreamState cfgA).tools = [] ∧
    (lookupUp (reloadUpstreams ctx0 renvA gA false true).1.upstreams "alpha").map
        (fun st => (st.client, st.tools)) = some (some 1, [toolT1]) := by
  refine ⟨rfl, rfl, rfl, by decide⟩

/-! ### C10 — missing config file: empty registry, successful reload -/

/-- C10: when the upstream config path names a missing file,
`loadUpstreamsConfig` returns zero upstreams without error, and a reload
performed in that situation succeeds (`ok` with count 0) and leaves the
upstream map empty — every previously configured upstream is removed. -/
theorem missing_config_reload (envv : List (String × String)) (ctx : GatewayCtx)
    (renv : ReloadEnv) (g : Gateway) (force syncUps : Bool)
    (hsrc : renv.source = .missing) (hidle : g.refreshing = false) :
    loadUpstreamsConfig envv ConfigSource.missing = .ok [] ∧
    (reloadUpstreams ctx renv g force syncUps).2.1 = .ok 0 ∧
    (reloadUpstreams ctx renv g force syncUps).1.upstreams = [] := by
    refine ⟨rfl, ?_, ?_⟩ <;>
      simp [reloadUpstreams, hidle, hsrc, loadUpstreamsConfig, validateUpstreams,
        upsertAll, lookupUp]

/-- C10 witness: a reload against the missing config file wipes the
`weather` entry and succeeds with zero upstreams. -/
theorem missing_config_reload_witness :
    loadUpstreamsConfig [] ConfigSource.missing = .ok [] ∧
    (reloadUpstreams ctx0 renvMissing gWeatherErr true true).2.1 = .ok 0 ∧
    (reloadUpstreams ctx0 renvMissing gWeatherErr true true).1.upstreams = [] :=
  missing_config_reload [] ctx0 renvMissing gWeatherErr true true rfl rfl

/-! ### C9 — single active session per endpoint -/

theorem lookupSid_cons_neg (k n : String) (v : Nat) (rest : List (String × Nat))
    (h : ¬ k = n) : lookupSid ((k, v) :: rest) n = lookupSid rest n := by
  simp [lookupSid, List.find?_cons, h]

theorem lookupSid_active (s : EndpointState) (hInv : SingleActive s) (sid : String)
    (t : Nat) (h : lookupSid s.transports sid = some t) :
    s.activeTransport = some t := by
  unfold lookupSid at h
  cases hf : s.transports.find? (fun p => decide (p.1 = sid)) with
  | none => rw [hf] at h; exact absurd h (by simp)
  | some p =>
      rw [hf] at h
      have hmem := List.mem_of_find?_eq_some hf
      have hsnd : p.2 = t := by simpa using h
      rw [← hsnd]
      exact hInv.2 p hmem

/-- C9: on an endpoint satisfying the single-active-session invariant,
every request preserves the invariant (at most one session is reachable
without presenting its id), and a successful initialization closes the
previously active transport, deregisters its session id, and makes
every subsequent request bearing the old session id fail as an invalid
session (the 400 bad-request rejection). -/
theorem endpoint_single_session (s : EndpointState) (hInv : SingleActive s) :
    (∀ req newSid, SingleActive (handleEndpointRequest s req newSid).1) ∧
    (∀ oldSid oldT newSid, lookupSid s.transports oldSid = some oldT → newSid ≠ oldSid →
      oldT ∈ (handleEndpointRequest s ⟨none, true⟩ newSid).1.closed ∧
      lookupSid (handleEndpointRequest s ⟨none, true⟩ newSid).1.transports oldSid = none ∧
      (∀ b newSid2,
        (handleEndpointRequest (handleEndpointRequest s ⟨none, true⟩ newSid).1
          ⟨some oldSid, b⟩ newSid2).2 = .badRequest)) := by
  constructor
  · rintro ⟨sid?, init⟩ newSid
    cases sid? with
    | some sid =>
        cases hf : lookupSid s.transports sid with
        | some t =>
            simp only [handleEndpointRequest, hf]
            exact hInv
        | none =>
            simp only [handleEndpointRequest, hf]
            rw [if_pos (Or.inl (by simp))]
            exact hInv
    | none =>
        by_cases hinit : init = false
        · simp only [handleEndpointRequest]
          rw [if_pos (Or.inr hinit)]
          exact hInv
        · simp only [handleEndpointRequest]
          rw [if_neg (by simp [hinit])]
          cases hact : s.activeTransport with
          | some t =>
              refine ⟨by simp, ?_⟩
              intro p hp
              simp only [List.nil_append, List.mem_singleton] at hp
              rw [hp]
          | none =>
              have htrans : s.transports = [] := by
                cases htr : s.transports with
                | nil => rfl
                | cons p rest =>
                    have hmem : p ∈ s.transports := htr ▸ List.mem_cons_self p rest
                    have := hInv.2 p hmem
                    rw [hact] at this
                    exact absurd this (by simp)
              refine ⟨by simp [htrans], ?_⟩
              intro p hp
              rw [htrans] at hp
              simp only [List.nil_append, List.mem_singleton] at hp
              rw [hp]
  · intro oldSid oldT newSid hreg hne
    have hact : s.activeTransport = some oldT := lookupSid_active s hInv oldSid oldT hreg
    have hstep : handleEndpointRequest s ⟨none, true⟩ newSid =
        ({ transports := [(newSid, s.nextTransportId)]
           activeTransport := some s.nextTransportId
           closed := oldT :: s.closed
           nextTransportId := s.nextTransportId + 1 }, .handled s.nextTransportId) := by
      simp only [handleEndpointRequest]
      rw [if_neg (by simp), hact]
      rfl
    rw [hstep]
    refine ⟨List.mem_cons_self _ _, ?_, ?_⟩
    · rw [lookupSid_cons_neg _ _ _ _ (fun h => hne h)]
      rfl
    · intro b newSid2
      simp only [handleEndpointRequest]
      rw [lookupSid_cons_neg _ _ _ _ (fun h => hne h)]
      rfl

/-- C9 witness: endpoint holding live session `sid-1` on transport 0;
a new initialization minting `sid-2` closes transport 0, deregisters
`sid-1`, and a follow-up request bearing `sid-1` is rejected. -/
theorem endpoint_single_session_witness :
    0 ∈ (handleEndpointRequest endpoint0 ⟨none, true⟩ "sid-2").1.closed ∧
    lookupSid (handleEndpointRequest endpoint0 ⟨none, true⟩ "sid-2").1.transports
      "sid-1" = none ∧
    (handleEndpointRequest (handleEndpointRequest endpoint0 ⟨none, true⟩ "sid-2").1
      ⟨some "sid-1", false⟩ "sid-3").2 = .badRequest := by
  have h := (endpoint_single_session endpoint0 (by constructor <;> decide)).2
    "sid-1" 0 "sid-2" (by decide) (by decide)
  exact ⟨h.1, h.2.1, h.2.2 false "sid-3"⟩

end SmartthingsMcp
